import Mathlib

/-!
# cluster-machine-approver: watch registry and approval protocol

A shallow embedding of `src/internal/k8s/k8s.go` (package `k8s`).

* The Go struct `k8s` becomes the structure `k8s`; its methods `Stop`,
  `CertificateSigningRequestsChan`, `Approve` and `Deny` become functions
  `k8s.Stop`, ... that pass the receiver and a `World` explicitly.
* `World` records the effects a method has outside the receiver: the calls made
  on the request store, the `Stop()` calls made on watch handles, the goroutines
  started, and the clock read by `metav1.Now()`.
* The request store (`v1.CertificateSigningRequestInterface`) is external; it is
  a pair of arbitrary response functions of the world seen at the call.
* The goroutine of `CertificateSigningRequestsChan` (lines 69-78) is a small
  step machine over the unbuffered channel `rChan`.
* `w.Stop()` on a watch handle (external) is recorded and closes the handle's
  result channel, dropping what the producer had not yet sent.
* `sync.Mutex` is not modelled: every method runs to completion before the next
  one starts (sequential executions only).
-/

/-- Go `error` values; the nil error is `none` in `Option Error`. -/
abbrev Error := String

/-- A `context.Context`, passed through unchanged to the store. -/
abbrev Context := Nat

/-- A `metav1.Time`; `0` is the zero value. -/
abbrev Time := Nat

/-- The Go string type `certificatesv1.RequestConditionType`. -/
abbrev RequestConditionType := String

/-- The Go string type `corev1.ConditionStatus`. -/
abbrev ConditionStatus := String

/-- Modelled from the spec: the constant `certificatesv1.CertificateApproved` of k8s.io/api,
whose declaration is not part of the source tree (condition kind Approved). -/
def CertificateApproved : RequestConditionType := "Approved"

/-- Modelled from the spec: the constant `certificatesv1.CertificateDenied` of k8s.io/api,
whose declaration is not part of the source tree (condition kind Denied). -/
def CertificateDenied : RequestConditionType := "Denied"

/-- Modelled from the spec: the constant `corev1.ConditionTrue` of k8s.io/api,
whose declaration is not part of the source tree (truth value true). -/
def ConditionTrue : ConditionStatus := "True"

/-- The struct `certificatesv1.CertificateSigningRequestCondition`
(the Go field `Type` is written `Type_`). -/
structure CertificateSigningRequestCondition where
  Type_ : RequestConditionType
  Status : ConditionStatus
  Reason : String
  Message : String
  LastUpdateTime : Time
  LastTransitionTime : Time
deriving DecidableEq, Repr

/-- The struct `certificatesv1.CertificateSigningRequestStatus`. -/
structure CertificateSigningRequestStatus where
  Conditions : List CertificateSigningRequestCondition
  Certificate : List Nat
deriving DecidableEq, Repr

/-- The struct `certificatesv1.CertificateSigningRequest`: the object name (from the
embedded `ObjectMeta`), the two spec fields the model keeps, and the status. -/
structure CertificateSigningRequest where
  Name : String
  Request : List Nat
  SignerName : String
  Status : CertificateSigningRequestStatus
deriving DecidableEq, Repr

/-- The dynamic value held by a `runtime.Object` interface: a signing request, or a value
of another dynamic type (named by `kind`; the nil interface is one of these). -/
inductive RuntimeObject where
  | csr (obj : CertificateSigningRequest)
  | other (kind : String)
deriving DecidableEq, Repr

/-- The struct `watch.Event` (the Go field `Type` is written `Type_`). -/
structure Event where
  Type_ : String
  Object : RuntimeObject
deriving DecidableEq, Repr

/-- What `w.ResultChan()` will yield: the events not yet pulled, oldest first, and whether
the producer closes the channel once they are drained. -/
structure EventSource where
  pending : List Event
  closed : Bool
deriving DecidableEq, Repr

/-- Modelled from the spec: the result channel of a watch handle once the handle is stopped.
The implementations of `watch.Interface` are not part of the source tree; by the spec,
cancelling a session's handle signals its subscription to stop producing, even if more raw
events were pending, and the event source is then closed: nothing more is sent and the
channel is closed. -/
def EventSource.stopped : EventSource :=
  { pending := [], closed := true }

/-- A `watch.Interface` handle: an identity and its result channel. -/
structure Watcher where
  id : Nat
  ResultChan : EventSource
deriving DecidableEq, Repr

/-- One call `UpdateApproval(ctx, name, obj, metav1.UpdateOptions{})` on the store. -/
structure UpdateApprovalCall where
  ctx : Context
  name : String
  obj : CertificateSigningRequest
deriving DecidableEq, Repr

/-- One call `zap.L().Warn(msg, zap.Any("event", event))`. -/
structure LogEntry where
  msg : String
  event : Event
deriving DecidableEq, Repr

/-- The unbuffered channel `rChan` made at line 68: whether `close` was executed on it, and
the values whose send has completed (each was taken by the consumer), oldest first. -/
structure Chan where
  closed : Bool
  delivered : List CertificateSigningRequest
deriving DecidableEq, Repr

/-- Where the goroutine of lines 69-78 stands: at the `range` head (line 70), blocked in the
send `rChan <- obj` (line 76), or past the loop with the function literal returned. -/
inductive Pc where
  | ranging
  | sending (obj : CertificateSigningRequest)
  | returned
deriving DecidableEq, Repr

/-- State of the goroutine started at line 69: the handle `w` its function literal captures,
the state of `w.ResultChan()`, the program point, the output channel and the warnings. -/
structure Goroutine where
  w : Watcher
  source : EventSource
  pc : Pc
  rChan : Chan
  warns : List LogEntry
deriving DecidableEq, Repr

/-- Effects outside the receiver. -/
structure World where
  clock : Time
  watchLog : List (Except Error Watcher)
  updates : List UpdateApprovalCall
  stops : List Watcher
  tasks : List Goroutine

/-- The request store client `v1.CertificateSigningRequestInterface` (external): how it
answers `Watch` and `UpdateApproval`, as arbitrary functions of the world at the call. -/
structure CertificateSigningRequestInterface where
  Watch : World → Except Error Watcher
  UpdateApproval : World → Context → String → CertificateSigningRequest →
    Option CertificateSigningRequest × Option Error

/-- The struct `k8s` (lines 18-23), without the mutex. -/
structure k8s where
  csr : CertificateSigningRequestInterface
  watchers : List Watcher

/-- The call `metav1.Now()`. -/
def metav1Now (wd : World) : Time := wd.clock

/-- The call `w.Stop()` on a watch handle: the call is recorded, and the result channel of
that handle, in every goroutine ranging over it, becomes `EventSource.stopped`. -/
def Watcher.Stop (w : Watcher) (wd : World) : World :=
  { wd with stops := wd.stops ++ [w],
            tasks := wd.tasks.map (fun g =>
              if g.w.id = w.id then { g with source := EventSource.stopped } else g) }

/-- The method `Stop` (lines 49-56): `for _, w := range s.watchers { w.Stop() }`.
No field of the receiver is assigned. -/
def k8s.Stop (s : k8s) (wd : World) : k8s × World :=
  (s, s.watchers.foldl (fun acc w => w.Stop acc) wd)

/-- The goroutine as `go func()` starts it: at the loop head, over `w.ResultChan()`, with
the channel fresh from `make` (open, nothing sent). -/
def Goroutine.start (w : Watcher) : Goroutine :=
  { w := w, source := w.ResultChan, pc := Pc.ranging,
    rChan := { closed := false, delivered := [] }, warns := [] }

/-- One transition of the goroutine (lines 70-77); `receiving` says whether the consumer is
waiting in a receive on `rChan`. `none`: no transition (blocked, or returned).
* at the `range` head with an event available: the type assertion of line 71; a signing
  request goes to the send of line 76, anything else is logged (line 73) and the loop
  continues (line 74);
* at the `range` head with the source drained: the loop ends if the source is closed,
  else the goroutine blocks;
* at the send: it completes when the consumer receives. -/
def Goroutine.step (receiving : Bool) (g : Goroutine) : Option Goroutine :=
  match g.pc with
  | Pc.ranging =>
    match g.source.pending with
    | event :: rest =>
      match event.Object with
      | RuntimeObject.csr obj =>
        some { g with source := { g.source with pending := rest }, pc := Pc.sending obj }
      | RuntimeObject.other _ =>
        some { g with source := { g.source with pending := rest },
                      warns := g.warns ++ [{ msg := "converting", event := event }] }
    | [] => if g.source.closed then some { g with pc := Pc.returned } else none
  | Pc.sending obj =>
    if receiving then
      some { g with rChan := { g.rChan with delivered := g.rChan.delivered ++ [obj] },
                    pc := Pc.ranging }
    else none
  | Pc.returned => none

/-- Run the goroutine for at most `fuel` transitions, stopping when none is possible. -/
def Goroutine.run (receiving : Bool) : Nat → Goroutine → Goroutine
  | 0, g => g
  | fuel + 1, g =>
    match g.step receiving with
    | none => g
    | some g1 => Goroutine.run receiving fuel g1

/-- What a receive `<-rChan` by the consumer observes in a state of the goroutine. -/
inductive RecvResult where
  | value (obj : CertificateSigningRequest)
  | endOfStream
  | blocks
deriving DecidableEq, Repr

/-- Go's receive on the unbuffered `rChan`: a pending send hands its value over; with no
sender, a closed channel yields end-of-stream at once and an open one blocks. -/
def Goroutine.recv (g : Goroutine) : RecvResult :=
  match g.pc with
  | Pc.sending obj => RecvResult.value obj
  | _ => if g.rChan.closed then RecvResult.endOfStream else RecvResult.blocks

/-- What `CertificateSigningRequestsChan` leaves: the receiver, the world, and the two
returned values (the channel is named by the index of its goroutine in `World.tasks`). -/
structure ChanResult where
  s : k8s
  world : World
  rChan : Option Nat
  err : Option Error

/-- The method `CertificateSigningRequestsChan` (lines 58-80). -/
def k8s.CertificateSigningRequestsChan (s : k8s) (wd : World) : ChanResult :=
  let resp := s.csr.Watch wd
  let wd1 : World := { wd with watchLog := wd.watchLog ++ [resp] }
  match resp with
  | Except.error err => { s := s, world := wd1, rChan := none, err := some err }
  | Except.ok w =>
    { s := { s with watchers := s.watchers ++ [w] },
      world := { wd1 with tasks := wd1.tasks ++ [Goroutine.start w] },
      rChan := some wd1.tasks.length,
      err := none }

/-- What `Approve` and `Deny` leave: the caller's request object (the methods write through
the pointer `r`), the world, and the returned error. -/
structure DecisionResult where
  r : CertificateSigningRequest
  world : World
  err : Option Error

/-- The method `Approve` (lines 82-93). -/
def k8s.Approve (s : k8s) (wd : World) (ctx : Context) (r : CertificateSigningRequest) :
    DecisionResult :=
  let r1 : CertificateSigningRequest :=
    { r with Status := { r.Status with Conditions := r.Status.Conditions ++
        [{ Status := ConditionTrue,
           Type_ := CertificateApproved,
           Reason := "User activation",
           Message := "This CSR was approved",
           LastUpdateTime := metav1Now wd,
           LastTransitionTime := 0 }] } }
  let resp := s.csr.UpdateApproval wd ctx r1.Name r1
  { r := r1,
    world := { wd with updates := wd.updates ++ [{ ctx := ctx, name := r1.Name, obj := r1 }] },
    err := resp.2 }

/-- The method `Deny` (lines 95-106). -/
def k8s.Deny (s : k8s) (wd : World) (ctx : Context) (r : CertificateSigningRequest) :
    DecisionResult :=
  let r1 : CertificateSigningRequest :=
    { r with Status := { r.Status with Conditions := r.Status.Conditions ++
        [{ Status := ConditionTrue,
           Type_ := CertificateDenied,
           Reason := "User activation",
           Message := "This CSR was denied by kubectl certificate deny",
           LastUpdateTime := metav1Now wd,
           LastTransitionTime := 0 }] } }
  let resp := s.csr.UpdateApproval wd ctx r1.Name r1
  { r := r1,
    world := { wd with updates := wd.updates ++ [{ ctx := ctx, name := r1.Name, obj := r1 }] },
    err := resp.2 }

/-- A sequence of `n` calls of `CertificateSigningRequestsChan`, one after the other. -/
def openWatches : Nat → k8s → World → k8s × World
  | 0, s, wd => (s, wd)
  | n + 1, s, wd =>
    let out := s.CertificateSigningRequestsChan wd
    openWatches n out.s out.world

/-- The handles among a list of `Watch` responses, in order. -/
def opened : List (Except Error Watcher) → List Watcher
  | [] => []
  | Except.ok w :: rest => w :: opened rest
  | Except.error _ :: rest => opened rest

/-- A registry as `Connect` builds it (lines 42-44): the client set, no watcher. -/
def newK8s (csr : CertificateSigningRequestInterface) : k8s :=
  { csr := csr, watchers := [] }

/-- Every goroutine of the world runs for at most `n` transitions; `receiving` says whether
the consumers are receiving meanwhile. -/
def World.runTasks (receiving : Bool) (n : Nat) (wd : World) : World :=
  { wd with tasks := wd.tasks.map (Goroutine.run receiving n) }

/-- The value a goroutine holds in a send that has not completed, if it is at the send. -/
def Pc.inFlight : Pc → List CertificateSigningRequest
  | Pc.sending obj => [obj]
  | _ => []

/-- A world in which nothing has happened yet. -/
def World.empty (clock : Time) : World :=
  { clock := clock, watchLog := [], updates := [], stops := [], tasks := [] }

/-- The signing requests among the payloads of a list of events, in the order of the list. -/
def requestsOf : List Event → List CertificateSigningRequest
  | [] => []
  | event :: rest =>
    match event.Object with
    | RuntimeObject.csr obj => obj :: requestsOf rest
    | RuntimeObject.other _ => requestsOf rest

/-- The events of a list whose payload is not a signing request, in the order of the list. -/
def rejectedOf : List Event → List Event
  | [] => []
  | event :: rest =>
    match event.Object with
    | RuntimeObject.csr _ => rejectedOf rest
    | RuntimeObject.other _ => event :: rejectedOf rest

/-! ## Sample inputs -/

/-- A pending request named csr-1 with no condition yet. -/
def sampleRequest1 : CertificateSigningRequest :=
  { Name := "csr-1", Request := [48, 130], SignerName := "kubernetes.io/kubelet-serving",
    Status := { Conditions := [], Certificate := [] } }

/-- A second pending request, named csr-2. -/
def sampleRequest2 : CertificateSigningRequest :=
  { sampleRequest1 with Name := "csr-2" }

/-- Two request events with an event of another payload type between them. -/
def sampleEvents : List Event :=
  [{ Type_ := "ADDED", Object := RuntimeObject.csr sampleRequest1 },
   { Type_ := "ERROR", Object := RuntimeObject.other "Status" },
   { Type_ := "ADDED", Object := RuntimeObject.csr sampleRequest2 }]

/-- Two request events and nothing else. -/
def sampleRequestEvents : List Event :=
  [{ Type_ := "ADDED", Object := RuntimeObject.csr sampleRequest1 },
   { Type_ := "MODIFIED", Object := RuntimeObject.csr sampleRequest2 }]

/-- A subscription that yields `sampleEvents` and is then closed. -/
def sampleWatcher : Watcher :=
  { id := 1, ResultChan := { pending := sampleEvents, closed := true } }

/-- A subscription that yields `sampleEvents` and stays open. -/
def openWatcher : Watcher :=
  { id := 3, ResultChan := { pending := sampleEvents, closed := false } }

/-- A subscription that yields `sampleRequestEvents` and is then closed. -/
def sampleRequestWatcher : Watcher :=
  { id := 2, ResultChan := { pending := sampleRequestEvents, closed := true } }

/-- A store whose `Watch` opens the given subscription and whose `UpdateApproval` reports
the given error. -/
def sampleStore (w : Watcher) (err : Option Error) : CertificateSigningRequestInterface :=
  { Watch := fun _ => Except.ok w,
    UpdateApproval := fun _ _ _ obj => (some obj, err) }

/-- A store that cannot establish a subscription. -/
def unreachableStore : CertificateSigningRequestInterface :=
  { Watch := fun _ => Except.error "connection refused",
    UpdateApproval := fun _ _ _ _ => (none, some "connection refused") }

/-- A store whose `Watch` succeeds on every other call, each time with a new handle. -/
def flakyStore : CertificateSigningRequestInterface :=
  { Watch := fun wd =>
      if wd.watchLog.length % 2 = 0 then
        Except.ok { id := wd.watchLog.length, ResultChan := { pending := [], closed := false } }
      else Except.error "timeout",
    UpdateApproval := fun _ _ _ obj => (some obj, none) }

/-- A registry over a store that rejects every approval update with a conflict. -/
def conflictRegistry : k8s :=
  newK8s (sampleStore sampleWatcher (some "conflict"))

/-- A registry holding one registered subscription. -/
def oneWatcherRegistry : k8s :=
  { csr := sampleStore sampleWatcher none, watchers := [sampleWatcher] }

/-! ## The translation goroutine -/

/-- A goroutine that has returned makes no further transition. -/
theorem Goroutine.run_returned (b : Bool) (fuel : Nat) (g : Goroutine)
    (h : g.pc = Pc.returned) : Goroutine.run b fuel g = g := by
  cases fuel with
  | zero => rfl
  | succ n => simp [Goroutine.run, Goroutine.step, h]

/-- A goroutine blocked at the loop head of an open, drained source stays there. -/
theorem Goroutine.run_blocked (b : Bool) (fuel : Nat) (g : Goroutine)
    (hpc : g.pc = Pc.ranging) (hp : g.source.pending = []) (hc : g.source.closed = false) :
    Goroutine.run b fuel g = g := by
  cases fuel with
  | zero => rfl
  | succ n => simp [Goroutine.run, Goroutine.step, hpc, hp, hc]

/-- With the consumer receiving, the goroutine drains its source: every signing request is
delivered in order, every other event is logged in order, nothing is closed, and the
goroutine ends returned (closed source) or waiting at the loop head (open source). -/
theorem Goroutine.run_drains (events : List Event) :
    ∀ (g : Goroutine) (fuel : Nat), g.pc = Pc.ranging → g.source.pending = events →
      2 * events.length + 1 ≤ fuel →
      Goroutine.run true fuel g =
        { w := g.w,
          source := { pending := [], closed := g.source.closed },
          pc := if g.source.closed then Pc.returned else Pc.ranging,
          rChan := { closed := g.rChan.closed,
                     delivered := g.rChan.delivered ++ requestsOf events },
          warns := g.warns ++ (rejectedOf events).map
            (fun event => { msg := "converting", event := event }) } := by
  induction events with
  | nil =>
    intro g fuel hpc hp hfuel
    obtain ⟨w, ⟨pending, closed⟩, pc, ⟨cclosed, delivered⟩, warns⟩ := g
    simp only at hpc hp
    subst hpc hp
    cases closed with
    | true =>
      obtain ⟨n, rfl⟩ : ∃ n, fuel = n + 1 := ⟨fuel - 1, by omega⟩
      simp [Goroutine.run, Goroutine.step, Goroutine.run_returned, requestsOf, rejectedOf]
    | false =>
      rw [Goroutine.run_blocked true fuel _ rfl rfl rfl]
      simp [requestsOf, rejectedOf]
  | cons event rest ih =>
    intro g fuel hpc hp hfuel
    obtain ⟨w, ⟨pending, closed⟩, pc, ⟨cclosed, delivered⟩, warns⟩ := g
    simp only at hpc hp
    subst hpc hp
    obtain ⟨etype, payload⟩ := event
    simp only [List.length_cons] at hfuel
    cases payload with
    | csr obj =>
      obtain ⟨n, rfl⟩ : ∃ n, fuel = n + 2 := ⟨fuel - 2, by omega⟩
      have hn : 2 * rest.length + 1 ≤ n := by omega
      simp only [Goroutine.run, Goroutine.step, if_true]
      rw [ih _ n rfl rfl hn]
      simp [requestsOf, rejectedOf]
    | other kind =>
      obtain ⟨n, rfl⟩ : ∃ n, fuel = n + 1 := ⟨fuel - 1, by omega⟩
      have hn : 2 * rest.length + 1 ≤ n := by omega
      simp only [Goroutine.run, Goroutine.step]
      rw [ih _ n rfl rfl hn]
      simp [requestsOf, rejectedOf]

/-- No transition of the goroutine closes `rChan` (or reopens it). -/
theorem Goroutine.step_closed (b : Bool) (g g1 : Goroutine) (h : g.step b = some g1) :
    g1.rChan.closed = g.rChan.closed := by
  obtain ⟨w, ⟨pending, closed⟩, pc, ⟨cclosed, delivered⟩, warns⟩ := g
  cases pc with
  | ranging =>
    cases pending with
    | nil =>
      cases closed <;> simp [Goroutine.step] at h
      subst h; rfl
    | cons event rest =>
      obtain ⟨etype, payload⟩ := event
      cases payload <;> simp [Goroutine.step] at h <;> subst h <;> rfl
  | sending obj =>
    cases b <;> simp [Goroutine.step] at h
    subst h; rfl
  | returned => simp [Goroutine.step] at h

/-- However long the goroutine runs, `rChan` keeps the closed flag it started with. -/
theorem Goroutine.run_closed (b : Bool) (fuel : Nat) :
    ∀ g : Goroutine, (Goroutine.run b fuel g).rChan.closed = g.rChan.closed := by
  induction fuel with
  | zero => intro g; rfl
  | succ n ih =>
    intro g
    cases hstep : g.step b with
    | none => simp [Goroutine.run, hstep]
    | some g1 =>
      simp only [Goroutine.run, hstep]
      rw [ih g1, Goroutine.step_closed b g g1 hstep]

/-- When every payload is a signing request, the requests are the payloads and nothing is
rejected. -/
theorem requestsOf_all (events : List Event)
    (h : ∀ e ∈ events, ∃ obj, e.Object = RuntimeObject.csr obj) :
    (requestsOf events).map RuntimeObject.csr = events.map (fun e => e.Object) ∧
      rejectedOf events = [] := by
  induction events with
  | nil => simp [requestsOf, rejectedOf]
  | cons event rest ih =>
    obtain ⟨obj, hobj⟩ := h event (List.mem_cons_self _ _)
    have hrest := ih (fun e he => h e (List.mem_cons_of_mem _ he))
    obtain ⟨etype, payload⟩ := event
    simp only at hobj
    subst hobj
    simp [requestsOf, rejectedOf, hrest.1, hrest.2]

/-- Every event is either delivered as a request or rejected. -/
theorem requestsOf_length_add (events : List Event) :
    (requestsOf events).length + (rejectedOf events).length = events.length := by
  induction events with
  | nil => simp [requestsOf, rejectedOf]
  | cons event rest ih =>
    obtain ⟨etype, payload⟩ := event
    cases payload <;> simp [requestsOf, rejectedOf] <;> omega

/-- The requests delivered are a subsequence of the payloads. -/
theorem requestsOf_sublist (events : List Event) :
    List.Sublist ((requestsOf events).map RuntimeObject.csr) (events.map (fun e => e.Object)) := by
  induction events with
  | nil => simp [requestsOf]
  | cons event rest ih =>
    obtain ⟨etype, payload⟩ := event
    cases payload with
    | csr obj => simpa [requestsOf] using ih
    | other kind => simpa [requestsOf] using List.Sublist.cons _ ih

/-- The rejected events are a subsequence of the events. -/
theorem rejectedOf_sublist (events : List Event) :
    List.Sublist (rejectedOf events) events := by
  induction events with
  | nil => simp [rejectedOf]
  | cons event rest ih =>
    obtain ⟨etype, payload⟩ := event
    cases payload with
    | csr obj => simpa [rejectedOf] using List.Sublist.cons _ ih
    | other kind => simpa [rejectedOf] using ih

/-- An event is rejected exactly when it is in the list with a payload of another type. -/
theorem mem_rejectedOf (events : List Event) (e : Event) :
    e ∈ rejectedOf events ↔ e ∈ events ∧ ∃ kind, e.Object = RuntimeObject.other kind := by
  induction events with
  | nil => simp [rejectedOf]
  | cons event rest ih =>
    obtain ⟨etype, payload⟩ := event
    cases payload with
    | csr obj =>
      simp only [rejectedOf, ih, List.mem_cons]
      constructor
      · rintro ⟨h1, h2⟩; exact ⟨Or.inr h1, h2⟩
      · rintro ⟨h1 | h1, kind, h2⟩
        · subst h1; simp at h2
        · exact ⟨h1, kind, h2⟩
    | other kind =>
      simp only [rejectedOf, ih, List.mem_cons]
      constructor
      · rintro (h1 | ⟨h1, h2⟩)
        · subst h1; exact ⟨Or.inl rfl, kind, rfl⟩
        · exact ⟨Or.inr h1, h2⟩
      · rintro ⟨h1 | h1, h2⟩
        · exact Or.inl h1
        · exact Or.inr ⟨h1, h2⟩

/-- A request is delivered exactly when some event of the list carries it. -/
theorem mem_requestsOf (events : List Event) (obj : CertificateSigningRequest) :
    obj ∈ requestsOf events ↔ ∃ e ∈ events, e.Object = RuntimeObject.csr obj := by
  induction events with
  | nil => simp [requestsOf]
  | cons event rest ih =>
    obtain ⟨etype, payload⟩ := event
    cases payload with
    | csr o =>
      simp only [requestsOf, List.mem_cons, ih]
      constructor
      · rintro (h | ⟨e, he, h⟩)
        · subst h; exact ⟨_, Or.inl rfl, rfl⟩
        · exact ⟨e, Or.inr he, h⟩
      · rintro ⟨e, he | he, h⟩
        · subst he; simp at h; exact Or.inl h.symm
        · exact Or.inr ⟨e, he, h⟩
    | other kind =>
      simp only [requestsOf, List.mem_cons, ih]
      constructor
      · rintro ⟨e, he, h⟩; exact ⟨e, Or.inr he, h⟩
      · rintro ⟨e, he | he, h⟩
        · subst he; simp at h
        · exact ⟨e, he, h⟩

/-! ## The registry -/

/-- The loop of `Stop` appends its watchers to the record of `Stop()` calls and stops the
result channel of every goroutine that ranges over one of them; it touches nothing else. -/
theorem Stop_foldl (ws : List Watcher) :
    ∀ wd : World, ws.foldl (fun acc w => w.Stop acc) wd =
      { wd with stops := wd.stops ++ ws,
                tasks := wd.tasks.map (fun g =>
                  if ws.any (fun w => decide (g.w.id = w.id)) then
                    { g with source := EventSource.stopped }
                  else g) } := by
  induction ws with
  | nil => intro wd; simp
  | cons w rest ih =>
    intro wd
    simp only [List.foldl_cons]
    rw [ih]
    simp only [Watcher.Stop, List.append_assoc, List.singleton_append, List.map_map]
    congr 1
    apply List.map_congr_left
    intro g _
    by_cases h : g.w.id = w.id
    · simp only [Function.comp_apply, if_pos h, List.any_cons, decide_eq_true h, Bool.true_or,
        if_true]
      split <;> rfl
    · simp only [Function.comp_apply, if_neg h, List.any_cons, decide_eq_false h,
        Bool.false_or]

/-- The handles of two runs of responses, one after the other. -/
theorem opened_append (xs ys : List (Except Error Watcher)) :
    opened (xs ++ ys) = opened xs ++ opened ys := by
  induction xs with
  | nil => simp [opened]
  | cons x rest ih =>
    cases x <;> simp [opened, ih]

/-- A sequence of opens extends the record of responses by one per call, registers exactly
the handles among them, in order, and issues no `Stop()`. -/
theorem openWatches_spec (n : Nat) :
    ∀ (s : k8s) (wd : World), ∃ responses : List (Except Error Watcher),
      (openWatches n s wd).2.watchLog = wd.watchLog ++ responses ∧
      responses.length = n ∧
      (openWatches n s wd).1.watchers = s.watchers ++ opened responses ∧
      (openWatches n s wd).2.stops = wd.stops ∧
      (openWatches n s wd).1.csr = s.csr := by
  induction n with
  | zero => intro s wd; exact ⟨[], by simp [openWatches, opened]⟩
  | succ n ih =>
    intro s wd
    cases hw : s.csr.Watch wd with
    | error err =>
      obtain ⟨rs, h1, h2, h3, h4, h5⟩ := ih s { wd with watchLog := wd.watchLog ++ [Except.error err] }
      refine ⟨Except.error err :: rs, ?_⟩
      simp only [openWatches, k8s.CertificateSigningRequestsChan, hw]
      simp [h1, h2, h3, h4, h5, opened]
    | ok w =>
      obtain ⟨rs, h1, h2, h3, h4, h5⟩ := ih { s with watchers := s.watchers ++ [w] }
        { wd with watchLog := wd.watchLog ++ [Except.ok w], tasks := wd.tasks ++ [Goroutine.start w] }
      refine ⟨Except.ok w :: rs, ?_⟩
      simp only [openWatches, k8s.CertificateSigningRequestsChan, hw]
      simp [h1, h2, h3, h4, h5, opened]

/-- The method `Stop` leaves the receiver as it was, appends its watchers, in order, to the
record of `Stop()` calls, and stops the result channels of their goroutines. -/
theorem Stop_spec (s : k8s) (wd : World) :
    s.Stop wd = (s, { wd with stops := wd.stops ++ s.watchers,
                              tasks := wd.tasks.map (fun g =>
                                if s.watchers.any (fun w => decide (g.w.id = w.id)) then
                                  { g with source := EventSource.stopped }
                                else g) }) := by
  simp [k8s.Stop, Stop_foldl]

/-! ## The approval protocol -/

/-- C1: Approve makes exactly one UpdateApproval submission, addressed by the request's
name; the submitted conditions are the existing ones, unchanged and in order, followed by one
condition of type Approved, status True, reason "User activation" and message
"This CSR was approved" (so K+1 conditions, the first K being the old ones). -/
theorem Approve_submits_appended_condition (s : k8s) (wd : World) (ctx : Context)
    (r : CertificateSigningRequest) :
    ∃ (call : UpdateApprovalCall) (c : CertificateSigningRequestCondition),
      (s.Approve wd ctx r).world.updates = wd.updates ++ [call] ∧
      call.name = r.Name ∧ call.ctx = ctx ∧
      call.obj.Status.Conditions = r.Status.Conditions ++ [c] ∧
      c.Type_ = CertificateApproved ∧ c.Status = ConditionTrue ∧
      c.Reason = "User activation" ∧ c.Message = "This CSR was approved" ∧
      c.LastUpdateTime = wd.clock ∧
      call.obj.Status.Conditions.length = r.Status.Conditions.length + 1 ∧
      call.obj.Status.Conditions.take r.Status.Conditions.length = r.Status.Conditions ∧
      call.obj.Status.Conditions.getLast? = some c := by
  refine ⟨_, _, rfl, rfl, rfl, rfl, rfl, rfl, rfl, rfl, rfl, ?_, ?_, ?_⟩ <;> simp

/-- C2: Deny makes exactly one UpdateApproval submission, addressed by the request's name;
the submitted conditions are the existing ones, unchanged and in order, followed by one
condition of type Denied, status True and reason "User activation". The submission is the
one Approve makes on the same input with only the type and the message of the appended
condition replaced. -/
theorem Deny_submits_appended_condition (s : k8s) (wd : World) (ctx : Context)
    (r : CertificateSigningRequest) :
    ∃ (call callA : UpdateApprovalCall) (c cA : CertificateSigningRequestCondition),
      (s.Deny wd ctx r).world.updates = wd.updates ++ [call] ∧
      call.name = r.Name ∧ call.ctx = ctx ∧
      call.obj.Status.Conditions = r.Status.Conditions ++ [c] ∧
      c.Type_ = CertificateDenied ∧ c.Status = ConditionTrue ∧
      c.Reason = "User activation" ∧
      call.obj.Status.Conditions.length = r.Status.Conditions.length + 1 ∧
      call.obj.Status.Conditions.take r.Status.Conditions.length = r.Status.Conditions ∧
      call.obj.Status.Conditions.getLast? = some c ∧
      (s.Approve wd ctx r).world.updates = wd.updates ++ [callA] ∧
      callA.obj.Status.Conditions = r.Status.Conditions ++ [cA] ∧
      c = { cA with Type_ := CertificateDenied,
                    Message := "This CSR was denied by kubectl certificate deny" } ∧
      call = { callA with obj := { callA.obj with Status :=
        { callA.obj.Status with Conditions := r.Status.Conditions ++ [c] } } } := by
  refine ⟨_, _, _, _, rfl, rfl, rfl, rfl, rfl, rfl, rfl, ?_, ?_, ?_, rfl, rfl, rfl, rfl⟩ <;> simp

/-- C3: Approve and Deny each call the store's UpdateApproval exactly once, whatever it
answers, and return exactly the error of that one call (nil if and only if the store
reported nil); a failure is followed by no second submission. -/
theorem decision_returns_store_error (s : k8s) (wd : World) (ctx : Context)
    (r : CertificateSigningRequest) :
    (∃ call : UpdateApprovalCall,
      (s.Approve wd ctx r).world.updates = wd.updates ++ [call] ∧
      (s.Approve wd ctx r).err = (s.csr.UpdateApproval wd call.ctx call.name call.obj).2 ∧
      ((s.Approve wd ctx r).err = none ↔
        (s.csr.UpdateApproval wd call.ctx call.name call.obj).2 = none)) ∧
    (∃ call : UpdateApprovalCall,
      (s.Deny wd ctx r).world.updates = wd.updates ++ [call] ∧
      (s.Deny wd ctx r).err = (s.csr.UpdateApproval wd call.ctx call.name call.obj).2 ∧
      ((s.Deny wd ctx r).err = none ↔
        (s.csr.UpdateApproval wd call.ctx call.name call.obj).2 = none)) ∧
    (s.Approve wd ctx r).world.updates.length = wd.updates.length + 1 ∧
    (s.Deny wd ctx r).world.updates.length = wd.updates.length + 1 := by
  refine ⟨⟨_, rfl, rfl, Iff.rfl⟩, ⟨_, rfl, rfl, Iff.rfl⟩, ?_, ?_⟩ <;>
    simp [k8s.Approve, k8s.Deny]

/-- C10: when the store's UpdateApproval fails, the request object written through by a
failed Approve (or Deny) keeps the appended condition: it holds the K old conditions and the
new one, K+1 in all. A further Approve on that object, in any later world, then submits K+2
conditions, the old ones followed by two Approved conditions. -/
theorem decision_not_rolled_back (s : k8s) (wd wd2 : World) (ctx ctx2 : Context)
    (r : CertificateSigningRequest) :
    ((s.Approve wd ctx r).err ≠ none →
      (s.Approve wd ctx r).r.Status.Conditions.length = r.Status.Conditions.length + 1 ∧
      (s.Approve wd ctx r).r.Status.Conditions.take r.Status.Conditions.length =
        r.Status.Conditions ∧
      ∃ (call : UpdateApprovalCall) (c1 c2 : CertificateSigningRequestCondition),
        (s.Approve wd2 ctx2 (s.Approve wd ctx r).r).world.updates = wd2.updates ++ [call] ∧
        call.obj.Status.Conditions = r.Status.Conditions ++ [c1, c2] ∧
        call.obj.Status.Conditions.length = r.Status.Conditions.length + 2 ∧
        c1.Type_ = CertificateApproved ∧ c1.Status = ConditionTrue ∧
        c2.Type_ = CertificateApproved ∧ c2.Status = ConditionTrue) ∧
    ((s.Deny wd ctx r).err ≠ none →
      (s.Deny wd ctx r).r.Status.Conditions.length = r.Status.Conditions.length + 1 ∧
      (s.Deny wd ctx r).r.Status.Conditions.take r.Status.Conditions.length =
        r.Status.Conditions) := by
  refine ⟨fun _ => ⟨?_, ?_, _,
      { Status := ConditionTrue, Type_ := CertificateApproved, Reason := "User activation",
        Message := "This CSR was approved", LastUpdateTime := wd.clock,
        LastTransitionTime := 0 },
      { Status := ConditionTrue, Type_ := CertificateApproved, Reason := "User activation",
        Message := "This CSR was approved", LastUpdateTime := wd2.clock,
        LastTransitionTime := 0 },
      rfl, ?_, ?_, rfl, rfl, rfl, rfl⟩, fun _ => ⟨?_, ?_⟩⟩ <;>
    simp [k8s.Approve, k8s.Deny, metav1Now]

/-- Witness of C10: a store that reports a conflict; the request keeps the appended
condition after the failed Approve and after the failed Deny. -/
theorem decision_not_rolled_back_witness :
    (conflictRegistry.Approve (World.empty 5) 0 sampleRequest1).err ≠ none ∧
    (conflictRegistry.Approve (World.empty 5) 0 sampleRequest1).r.Status.Conditions.length =
      sampleRequest1.Status.Conditions.length + 1 ∧
    (conflictRegistry.Deny (World.empty 5) 0 sampleRequest1).err ≠ none ∧
    (conflictRegistry.Deny (World.empty 5) 0 sampleRequest1).r.Status.Conditions.length =
      sampleRequest1.Status.Conditions.length + 1 :=
  ⟨by decide,
   ((decision_not_rolled_back conflictRegistry (World.empty 5) (World.empty 6) 0 0
      sampleRequest1).1 (by decide)).1,
   by decide,
   ((decision_not_rolled_back conflictRegistry (World.empty 5) (World.empty 6) 0 0
      sampleRequest1).2 (by decide)).1⟩

/-! ## Opening a watch -/

/-- C7: when the store fails to establish the subscription, CertificateSigningRequestsChan
returns that error and no stream, and leaves the registry (its watcher list included) as it
was; no goroutine is started and no Stop is issued. -/
theorem watch_failure_registers_nothing (s : k8s) (wd : World) (err : Error)
    (h : s.csr.Watch wd = Except.error err) :
    (s.CertificateSigningRequestsChan wd).err = some err ∧
    (s.CertificateSigningRequestsChan wd).rChan = none ∧
    (s.CertificateSigningRequestsChan wd).s = s ∧
    (s.CertificateSigningRequestsChan wd).s.watchers = s.watchers ∧
    (s.CertificateSigningRequestsChan wd).world.tasks = wd.tasks ∧
    (s.CertificateSigningRequestsChan wd).world.stops = wd.stops := by
  simp [k8s.CertificateSigningRequestsChan, h]

/-- Witness of C7: a registry with one watcher over a store that refuses the connection. -/
theorem watch_failure_registers_nothing_witness :
    ({ oneWatcherRegistry with csr := unreachableStore } : k8s).csr.Watch (World.empty 0) =
      Except.error "connection refused" ∧
    (({ oneWatcherRegistry with csr := unreachableStore } : k8s).CertificateSigningRequestsChan
      (World.empty 0)).s.watchers = [sampleWatcher] ∧
    (({ oneWatcherRegistry with csr := unreachableStore } : k8s).CertificateSigningRequestsChan
      (World.empty 0)).rChan = none :=
  ⟨rfl,
   (watch_failure_registers_nothing { oneWatcherRegistry with csr := unreachableStore }
      (World.empty 0) "connection refused" rfl).2.2.2.1,
   (watch_failure_registers_nothing { oneWatcherRegistry with csr := unreachableStore }
      (World.empty 0) "connection refused" rfl).2.1⟩

/-- C4: when every one of the N events of the subscription carries a signing request, the
goroutine started by CertificateSigningRequestsChan, with the consumer receiving, delivers
exactly the N payloads in the order received: the delivered sequence is the sequence of the
events' payloads, and nothing is logged. -/
theorem translation_delivers_all_in_order (s : k8s) (wd : World) (w : Watcher)
    (events : List Event) (closed : Bool) (fuel : Nat)
    (hwatch : s.csr.Watch wd = Except.ok w)
    (hsrc : w.ResultChan = { pending := events, closed := closed })
    (hcsr : ∀ e ∈ events, ∃ obj, e.Object = RuntimeObject.csr obj)
    (hfuel : 2 * events.length + 1 ≤ fuel) :
    (s.CertificateSigningRequestsChan wd).world.tasks = wd.tasks ++ [Goroutine.start w] ∧
    (s.CertificateSigningRequestsChan wd).rChan = some wd.tasks.length ∧
    ((Goroutine.start w).run true fuel).rChan.delivered.map RuntimeObject.csr =
      events.map (fun e => e.Object) ∧
    ((Goroutine.start w).run true fuel).rChan.delivered.length = events.length ∧
    ((Goroutine.start w).run true fuel).source.pending = [] ∧
    ((Goroutine.start w).run true fuel).warns = [] := by
  refine ⟨?_, ?_, ?_⟩
  · simp [k8s.CertificateSigningRequestsChan, hwatch]
  · simp [k8s.CertificateSigningRequestsChan, hwatch]
  · have hrun := Goroutine.run_drains events (Goroutine.start w) fuel rfl
      (by simp [Goroutine.start, hsrc]) hfuel
    have hall := requestsOf_all events hcsr
    have hlen : (requestsOf events).length = events.length := by
      have := congrArg List.length hall.1
      simpa using this
    rw [hrun]
    simp [Goroutine.start, hall.1, hall.2, hlen]

/-- Witness of C4: two request events; both payloads arrive, in order. -/
theorem translation_delivers_all_in_order_witness :
    (∀ e ∈ sampleRequestEvents, ∃ obj, e.Object = RuntimeObject.csr obj) ∧
    ((Goroutine.start sampleRequestWatcher).run true 5).rChan.delivered.map RuntimeObject.csr =
      sampleRequestEvents.map (fun e => e.Object) ∧
    ((Goroutine.start sampleRequestWatcher).run true 5).rChan.delivered =
      [sampleRequest1, sampleRequest2] :=
  have hcsr : ∀ e ∈ sampleRequestEvents, ∃ obj, e.Object = RuntimeObject.csr obj := by
    intro e he
    simp only [sampleRequestEvents, List.mem_cons, List.mem_singleton, List.not_mem_nil,
      or_false] at he
    rcases he with rfl | rfl <;> exact ⟨_, rfl⟩
  ⟨hcsr,
   (translation_delivers_all_in_order (newK8s (sampleStore sampleRequestWatcher none))
      (World.empty 0) sampleRequestWatcher sampleRequestEvents true 5 rfl rfl hcsr
      (by decide)).2.2.1,
   by decide⟩

/-- C5: for any events, the goroutine started by CertificateSigningRequestsChan, with the
consumer receiving, delivers exactly the signing requests among the payloads, in their
original order, logs exactly one warning for each event of another payload type, carrying
that event, in order, delivers nothing for such an event, and consumes every event of the
source (an event of another type does not end the loop). -/
theorem translation_skips_other_payloads (s : k8s) (wd : World) (w : Watcher)
    (events : List Event) (closed : Bool) (fuel : Nat)
    (hwatch : s.csr.Watch wd = Except.ok w)
    (hsrc : w.ResultChan = { pending := events, closed := closed })
    (hfuel : 2 * events.length + 1 ≤ fuel) :
    (s.CertificateSigningRequestsChan wd).world.tasks = wd.tasks ++ [Goroutine.start w] ∧
    ((Goroutine.start w).run true fuel).rChan.delivered = requestsOf events ∧
    ((Goroutine.start w).run true fuel).warns =
      (rejectedOf events).map (fun event => { msg := "converting", event := event }) ∧
    ((Goroutine.start w).run true fuel).source.pending = [] ∧
    List.Sublist (((Goroutine.start w).run true fuel).rChan.delivered.map RuntimeObject.csr)
      (events.map (fun e => e.Object)) ∧
    (∀ obj, obj ∈ ((Goroutine.start w).run true fuel).rChan.delivered ↔
      ∃ e ∈ events, e.Object = RuntimeObject.csr obj) ∧
    (∀ e, e ∈ ((Goroutine.start w).run true fuel).warns.map (fun l => l.event) ↔
      e ∈ events ∧ ∃ kind, e.Object = RuntimeObject.other kind) ∧
    List.Sublist (((Goroutine.start w).run true fuel).warns.map (fun l => l.event)) events ∧
    ((Goroutine.start w).run true fuel).rChan.delivered.length +
      ((Goroutine.start w).run true fuel).warns.length = events.length := by
  refine ⟨?_, ?_⟩
  · simp [k8s.CertificateSigningRequestsChan, hwatch]
  · have hrun := Goroutine.run_drains events (Goroutine.start w) fuel rfl
      (by simp [Goroutine.start, hsrc]) hfuel
    rw [hrun]
    have hmap : List.map (fun l : LogEntry => l.event)
        (List.map (fun event => ({ msg := "converting", event := event } : LogEntry))
          (rejectedOf events)) = rejectedOf events := by
      simp [List.map_map, Function.comp_def]
    refine ⟨by simp [Goroutine.start], by simp [Goroutine.start], rfl, ?_, ?_, ?_, ?_, ?_⟩
    · simpa [Goroutine.start] using requestsOf_sublist events
    · intro obj
      simpa [Goroutine.start] using mem_requestsOf events obj
    · intro e
      simp only [Goroutine.start, List.nil_append, hmap]
      exact mem_rejectedOf events e
    · simp only [Goroutine.start, List.nil_append, hmap]
      exact rejectedOf_sublist events
    · simpa [Goroutine.start] using requestsOf_length_add events

/-- Witness of C5: an event of another type between two request events; the two requests
arrive in order and one warning carries the other event. -/
theorem translation_skips_other_payloads_witness :
    ((Goroutine.start sampleWatcher).run true 7).rChan.delivered = requestsOf sampleEvents ∧
    requestsOf sampleEvents = [sampleRequest1, sampleRequest2] ∧
    ((Goroutine.start sampleWatcher).run true 7).warns =
      [{ msg := "converting",
         event := { Type_ := "ERROR", Object := RuntimeObject.other "Status" } }] :=
  ⟨(translation_skips_other_payloads (newK8s (sampleStore sampleWatcher none))
      (World.empty 0) sampleWatcher sampleEvents true 7 rfl rfl (by decide)).2.1,
   by decide, by decide⟩

/-- Counterexample to C6: a subscription that yields three events and is closed. The
goroutine processes all of them and returns, and the output channel is still open: a
consumer receiving from it then blocks and never observes end-of-stream. -/
theorem output_stream_left_open :
    ((newK8s (sampleStore sampleWatcher none)).CertificateSigningRequestsChan
      (World.empty 0)).world.tasks = [Goroutine.start sampleWatcher] ∧
    ((Goroutine.start sampleWatcher).run true 7).pc = Pc.returned ∧
    ((Goroutine.start sampleWatcher).run true 7).source.pending = [] ∧
    ((Goroutine.start sampleWatcher).run true 7).rChan.closed = false ∧
    ((Goroutine.start sampleWatcher).run true 7).recv = RecvResult.blocks ∧
    ((Goroutine.start sampleWatcher).run true 7).recv ≠ RecvResult.endOfStream := by
  decide

/-- No transition of the goroutine changes the handle it captured. -/
theorem Goroutine.step_w (b : Bool) (g g1 : Goroutine) (h : g.step b = some g1) :
    g1.w = g.w := by
  obtain ⟨w, ⟨pending, closed⟩, pc, ⟨cclosed, delivered⟩, warns⟩ := g
  cases pc with
  | ranging =>
    cases pending with
    | nil =>
      cases closed <;> simp [Goroutine.step] at h
      subst h; rfl
    | cons event rest =>
      obtain ⟨etype, payload⟩ := event
      cases payload <;> simp [Goroutine.step] at h <;> subst h <;> rfl
  | sending obj =>
    cases b <;> simp [Goroutine.step] at h
    subst h; rfl
  | returned => simp [Goroutine.step] at h

/-- However long the goroutine runs, it ranges over the same handle. -/
theorem Goroutine.run_w (b : Bool) (fuel : Nat) :
    ∀ g : Goroutine, (Goroutine.run b fuel g).w = g.w := by
  induction fuel with
  | zero => intro g; rfl
  | succ n ih =>
    intro g
    cases hstep : g.step b with
    | none => simp [Goroutine.run, hstep]
    | some g1 =>
      simp only [Goroutine.run, hstep]
      rw [ih g1, Goroutine.step_w b g g1 hstep]

/-- Over a stopped source, with the consumer receiving, the goroutine completes the send it
may be blocked in, finds the source closed and returns; nothing else changes. -/
theorem Goroutine.run_stopped (g : Goroutine) (fuel : Nat)
    (hsrc : g.source = EventSource.stopped) (hfuel : 2 ≤ fuel) :
    Goroutine.run true fuel g =
      { g with pc := Pc.returned,
               rChan := { closed := g.rChan.closed,
                          delivered := g.rChan.delivered ++ g.pc.inFlight } } := by
  obtain ⟨w, src, pc, ⟨cclosed, delivered⟩, warns⟩ := g
  simp only at hsrc
  subst hsrc
  cases pc with
  | ranging =>
    rw [Goroutine.run_drains [] _ fuel rfl rfl (by simp; omega)]
    simp [EventSource.stopped, requestsOf, rejectedOf, Pc.inFlight]
  | sending obj =>
    obtain ⟨n, rfl⟩ : ∃ n, fuel = n + 1 := ⟨fuel - 1, by omega⟩
    simp only [Goroutine.run, Goroutine.step, if_true]
    rw [Goroutine.run_drains [] _ n rfl rfl (by simp; omega)]
    simp [EventSource.stopped, requestsOf, rejectedOf, Pc.inFlight]
  | returned =>
    rw [Goroutine.run_returned true fuel _ rfl]
    simp [Pc.inFlight]

/-- C6, amended: for the goroutine started by CertificateSigningRequestsChan, with the
consumer receiving: (1) when the subscription's event source is closed after its events, the
goroutine consumes every event, delivers the signing requests among them, stops pulling and
returns; (2) when the registry's Stop is called at any point of a run, whatever the source
held and whether or not the consumer was receiving until then, the handle of the session is
stopped, its source is thereby closed, and the goroutine delivers at most the one request it
was already sending, pulls nothing more and returns; (3) in both cases, and at any point of
any run, the output channel is not closed, so a receive after the last item blocks instead
of observing end-of-stream. -/
theorem translation_returns_without_closing (s : k8s) (wd : World) (w : Watcher)
    (hwatch : s.csr.Watch wd = Except.ok w) :
    (s.CertificateSigningRequestsChan wd).world.tasks = wd.tasks ++ [Goroutine.start w] ∧
    (∀ (events : List Event) (fuel : Nat),
      w.ResultChan = { pending := events, closed := true } →
      2 * events.length + 1 ≤ fuel →
      ((Goroutine.start w).run true fuel).pc = Pc.returned ∧
      ((Goroutine.start w).run true fuel).step true = none ∧
      ((Goroutine.start w).run true fuel).source.pending = [] ∧
      ((Goroutine.start w).run true fuel).rChan.delivered = requestsOf events ∧
      ((Goroutine.start w).run true fuel).rChan.closed = false ∧
      ((Goroutine.start w).run true fuel).recv = RecvResult.blocks) ∧
    (∀ (b : Bool) (k fuel : Nat), 2 ≤ fuel →
      ((s.CertificateSigningRequestsChan wd).s.Stop
        ((s.CertificateSigningRequestsChan wd).world.runTasks b k)).2.stops =
        wd.stops ++ s.watchers ++ [w] ∧
      ((s.CertificateSigningRequestsChan wd).s.Stop
        ((s.CertificateSigningRequestsChan wd).world.runTasks b k)).2.tasks.drop
          wd.tasks.length =
        [{ (Goroutine.start w).run b k with source := EventSource.stopped }] ∧
      (Goroutine.run true fuel
        { (Goroutine.start w).run b k with source := EventSource.stopped }).pc =
        Pc.returned ∧
      (Goroutine.run true fuel
        { (Goroutine.start w).run b k with source := EventSource.stopped }).step true =
        none ∧
      (Goroutine.run true fuel
        { (Goroutine.start w).run b k with source := EventSource.stopped }).rChan.delivered =
        ((Goroutine.start w).run b k).rChan.delivered ++
          ((Goroutine.start w).run b k).pc.inFlight ∧
      (Goroutine.run true fuel
        { (Goroutine.start w).run b k with source := EventSource.stopped }).rChan.closed =
        false ∧
      (Goroutine.run true fuel
        { (Goroutine.start w).run b k with source := EventSource.stopped }).recv =
        RecvResult.blocks) ∧
    (∀ (b : Bool) (n : Nat), ((Goroutine.start w).run b n).rChan.closed = false) := by
  have hclosed : ∀ (b : Bool) (n : Nat), ((Goroutine.start w).run b n).rChan.closed = false := by
    intro b n
    rw [Goroutine.run_closed]
    rfl
  refine ⟨?_, ?_, ?_, hclosed⟩
  · simp [k8s.CertificateSigningRequestsChan, hwatch]
  · intro events fuel hsrc hfuel
    have hrun := Goroutine.run_drains events (Goroutine.start w) fuel rfl
      (by simp [Goroutine.start, hsrc]) hfuel
    refine ⟨?_, ?_, ?_, ?_, ?_, ?_⟩
    · rw [hrun]; simp [Goroutine.start, hsrc]
    · rw [hrun]; simp [Goroutine.start, hsrc, Goroutine.step]
    · rw [hrun]
    · rw [hrun]; simp [Goroutine.start]
    · rw [hrun]; simp [Goroutine.start]
    · rw [hrun]; simp [Goroutine.start, hsrc, Goroutine.recv]
  · intro b k fuel hfuel
    have hrun := Goroutine.run_stopped
      { (Goroutine.start w).run b k with source := EventSource.stopped } fuel rfl hfuel
    have hw : ((Goroutine.start w).run b k).w = w := by
      rw [Goroutine.run_w]
      rfl
    refine ⟨?_, ?_, ?_, ?_, ?_, ?_, ?_⟩
    · rw [Stop_spec]
      simp [k8s.CertificateSigningRequestsChan, hwatch, World.runTasks]
    · rw [Stop_spec]
      simp only [k8s.CertificateSigningRequestsChan, hwatch, World.runTasks, List.map_append,
        List.map_map, List.map_cons, List.map_nil]
      rw [List.drop_left' (by simp)]
      simp [hw]
    · rw [hrun]
    · rw [hrun]; simp [Goroutine.step]
    · rw [hrun]
    · rw [hrun]; exact hclosed b k
    · rw [hrun]
      simp [Goroutine.recv, hclosed b k]

/-- Witness of the amended C6: a closed three-event subscription runs to its end with the
output channel open; an open subscription keeps its goroutine waiting at the loop head until
Stop, after which the goroutine returns, again with the output channel open. -/
theorem translation_returns_without_closing_witness :
    ((Goroutine.start sampleWatcher).run true 7).pc = Pc.returned ∧
    ((Goroutine.start sampleWatcher).run true 7).rChan.closed = false ∧
    ((Goroutine.start sampleWatcher).run true 7).recv = RecvResult.blocks ∧
    ((Goroutine.start openWatcher).run true 50).pc = Pc.ranging ∧
    (((newK8s (sampleStore openWatcher none)).CertificateSigningRequestsChan
      (World.empty 0)).s.Stop
        (((newK8s (sampleStore openWatcher none)).CertificateSigningRequestsChan
          (World.empty 0)).world.runTasks true 50)).2.tasks.drop (World.empty 0).tasks.length =
      [{ (Goroutine.start openWatcher).run true 50 with source := EventSource.stopped }] ∧
    (Goroutine.run true 2
      { (Goroutine.start openWatcher).run true 50 with source := EventSource.stopped }).pc =
      Pc.returned ∧
    (Goroutine.run true 2
      { (Goroutine.start openWatcher).run true 50 with source := EventSource.stopped }).recv =
      RecvResult.blocks :=
  ⟨((translation_returns_without_closing (newK8s (sampleStore sampleWatcher none))
      (World.empty 0) sampleWatcher rfl).2.1 sampleEvents 7 rfl (by decide)).1,
   ((translation_returns_without_closing (newK8s (sampleStore sampleWatcher none))
      (World.empty 0) sampleWatcher rfl).2.1 sampleEvents 7 rfl (by decide)).2.2.2.2.1,
   ((translation_returns_without_closing (newK8s (sampleStore sampleWatcher none))
      (World.empty 0) sampleWatcher rfl).2.1 sampleEvents 7 rfl (by decide)).2.2.2.2.2,
   by decide,
   ((translation_returns_without_closing (newK8s (sampleStore openWatcher none))
      (World.empty 0) openWatcher rfl).2.2.1 true 50 2 (by decide)).2.1,
   ((translation_returns_without_closing (newK8s (sampleStore openWatcher none))
      (World.empty 0) openWatcher rfl).2.2.1 true 50 2 (by decide)).2.2.1,
   ((translation_returns_without_closing (newK8s (sampleStore openWatcher none))
      (World.empty 0) openWatcher rfl).2.2.1 true 50 2 (by decide)).2.2.2.2.2.2⟩

/-! ## Stopping the registry -/

/-- The handles of a list of responses are its successful responses, in order. -/
theorem opened_map_ok (responses : List (Except Error Watcher)) :
    (opened responses).map Except.ok = responses.filter Except.isOk := by
  induction responses with
  | nil => simp [opened]
  | cons x rest ih =>
    cases x <;> simp [opened, ih, Except.isOk, Except.toBool]

/-- C8: after any number of CertificateSigningRequestsChan calls on a fresh registry, each
succeeding or failing as the store answers, the watcher list is exactly the successfully
opened subscriptions, in the order they were opened, one entry per success; one Stop then
issues Stop to exactly these, in order, once per entry, and to nothing else. -/
theorem Stop_cancels_each_opened_once (csr : CertificateSigningRequestInterface)
    (wd : World) (n : Nat) :
    ∃ responses : List (Except Error Watcher),
      (openWatches n (newK8s csr) wd).2.watchLog = wd.watchLog ++ responses ∧
      responses.length = n ∧
      (openWatches n (newK8s csr) wd).1.watchers = opened responses ∧
      (opened responses).map Except.ok = responses.filter Except.isOk ∧
      (openWatches n (newK8s csr) wd).2.stops = wd.stops ∧
      ((openWatches n (newK8s csr) wd).1.Stop (openWatches n (newK8s csr) wd).2).2.stops =
        wd.stops ++ opened responses ∧
      (∀ x : Watcher,
        ((openWatches n (newK8s csr) wd).1.Stop (openWatches n (newK8s csr) wd).2).2.stops.count x
          = wd.stops.count x + (opened responses).count x) ∧
      ((opened responses).Nodup → ∀ x ∈ opened responses,
        ((openWatches n (newK8s csr) wd).1.Stop (openWatches n (newK8s csr) wd).2).2.stops.count x
          = wd.stops.count x + 1) ∧
      (∀ x : Watcher, x ∉ opened responses →
        ((openWatches n (newK8s csr) wd).1.Stop (openWatches n (newK8s csr) wd).2).2.stops.count x
          = wd.stops.count x) := by
  obtain ⟨rs, h1, h2, h3, h4, _⟩ := openWatches_spec n (newK8s csr) wd
  have hw : (openWatches n (newK8s csr) wd).1.watchers = opened rs := by
    simpa [newK8s] using h3
  have hstops : ((openWatches n (newK8s csr) wd).1.Stop
      (openWatches n (newK8s csr) wd).2).2.stops = wd.stops ++ opened rs := by
    rw [Stop_spec]
    simp [h4, hw]
  refine ⟨rs, h1, h2, hw, opened_map_ok rs, h4, hstops, ?_, ?_, ?_⟩
  · intro x
    rw [hstops, List.count_append]
  · intro hnd x hx
    rw [hstops, List.count_append, List.count_eq_one_of_mem hnd hx]
  · intro x hx
    rw [hstops, List.count_append, List.count_eq_zero_of_not_mem hx]
    rfl

/-- Witness of C8: five opens on a store that fails every other time, then one Stop: three
handles are registered, and the Stop calls issued are exactly the registered handles. -/
theorem Stop_cancels_each_opened_once_witness :
    ((openWatches 5 (newK8s flakyStore) (World.empty 0)).1.Stop
      (openWatches 5 (newK8s flakyStore) (World.empty 0)).2).2.stops =
      (openWatches 5 (newK8s flakyStore) (World.empty 0)).1.watchers ∧
    ((openWatches 5 (newK8s flakyStore) (World.empty 0)).1.watchers.map (fun w => w.id)) =
      [0, 2, 4] := by
  obtain ⟨rs, _, _, h3, _, _, h6, _⟩ :=
    Stop_cancels_each_opened_once flakyStore (World.empty 0) 5
  refine ⟨?_, by decide⟩
  rw [h6, h3]
  rfl

/-- Counterexample to C9: with one subscription registered, a second Stop issues Stop to it
again; the record of cancellations after two calls differs from the record after one. -/
theorem second_Stop_cancels_again :
    (oneWatcherRegistry.Stop (World.empty 0)).2.stops = [sampleWatcher] ∧
    ((oneWatcherRegistry.Stop (World.empty 0)).1.Stop
      (oneWatcherRegistry.Stop (World.empty 0)).2).2.stops = [sampleWatcher, sampleWatcher] ∧
    ((oneWatcherRegistry.Stop (World.empty 0)).1.Stop
      (oneWatcherRegistry.Stop (World.empty 0)).2).2.stops ≠
      (oneWatcherRegistry.Stop (World.empty 0)).2.stops := by
  decide

/-- C9, amended: Stop with no watcher registered is a no-op (nothing is cancelled, the
state is unchanged). Stop never changes the registry, so a second Stop issues Stop once more
to every registered watcher, in the same order: after two calls the registry is unchanged
and the sessions cancelled are the same as after one call, each cancelled twice. -/
theorem Stop_twice (s : k8s) (wd : World) :
    (s.watchers = [] → s.Stop wd = (s, wd)) ∧
    (s.Stop wd).1 = s ∧
    ((s.Stop wd).1.Stop (s.Stop wd).2).1 = s ∧
    (s.Stop wd).2.stops = wd.stops ++ s.watchers ∧
    ((s.Stop wd).1.Stop (s.Stop wd).2).2.stops = (s.Stop wd).2.stops ++ s.watchers ∧
    (∀ x : Watcher, x ∈ ((s.Stop wd).1.Stop (s.Stop wd).2).2.stops ↔ x ∈ (s.Stop wd).2.stops) ∧
    (∀ x : Watcher, ((s.Stop wd).1.Stop (s.Stop wd).2).2.stops.count x =
      wd.stops.count x + 2 * s.watchers.count x) := by
  refine ⟨?_, ?_, ?_, ?_, ?_, ?_, ?_⟩
  · intro h
    simp [Stop_spec, h]
  · simp [Stop_spec]
  · simp [Stop_spec]
  · simp [Stop_spec]
  · simp [Stop_spec]
  · intro x
    simp only [Stop_spec, List.mem_append]
    tauto
  · intro x
    simp only [Stop_spec, List.count_append]
    omega

/-- Witness of the amended C9: an empty registry is left as it is by Stop, and a registry
with one watcher has it stopped twice by two calls. -/
theorem Stop_twice_witness :
    (newK8s unreachableStore).Stop (World.empty 0) = (newK8s unreachableStore, World.empty 0) ∧
    ((oneWatcherRegistry.Stop (World.empty 0)).1.Stop
      (oneWatcherRegistry.Stop (World.empty 0)).2).2.stops.count sampleWatcher =
      (World.empty 0).stops.count sampleWatcher + 2 * oneWatcherRegistry.watchers.count sampleWatcher :=
  ⟨(Stop_twice (newK8s unreachableStore) (World.empty 0)).1 rfl,
   (Stop_twice oneWatcherRegistry (World.empty 0)).2.2.2.2.2.2 sampleWatcher⟩
